import Mathlib

/-!
# Verification of the mega-human sprite conversion pipeline

Shallow embedding of the two sprite converters of the repository,
`src/analysis/build_zero_sprites.py` and `src/analysis/build_sigma_sprites.py`.
Both scripts read animation JSON files, convert rectangles, durations,
offsets, points of interest (POIs) and hitboxes into compiled frame records,
apply hand-authored override tables (sigma only), and emit a lookup function.

Modelling choices:
* JSON numbers are modelled as exact rationals (`ℚ`); the scripts use Python
  floats, whose values on the inputs of interest are decimal literals that we
  treat exactly.
* Python `int(x)` truncates toward zero; this is `pytrunc` below.
* Python 3 `round(x)` rounds to the nearest integer with ties to even
  (banker's rounding); this is `pyround` below.
* Optional JSON fields accessed with `dict.get(key, default)` are modelled as
  `Option` fields read with `Option.getD`.
* The module-level override dictionaries `MANUAL_DURATIONS` and
  `MANUAL_ATK_BOXES` of the sigma script are passed to the conversion
  function explicitly; the script's concrete tables are embedded verbatim
  below and instantiate the general statements.
-/

/-- Python `int(x)`: truncation toward zero of an exact rational. -/
def pytrunc (q : ℚ) : ℤ := if 0 ≤ q then ⌊q⌋ else -⌊-q⌋

/-- Python 3 `round(x)`: nearest integer, ties to the even integer. -/
def pyround (q : ℚ) : ℤ :=
  if q - ⌊q⌋ < 1/2 then ⌊q⌋
  else if 1/2 < q - ⌊q⌋ then ⌊q⌋ + 1
  else if ⌊q⌋ % 2 = 0 then ⌊q⌋ else ⌊q⌋ + 1

/-- A 2-D point with mandatory coordinates, as in `rect['topLeftPoint']['x']`
(a missing coordinate would be a fatal `KeyError` in the scripts). -/
structure Pt where
  x : ℚ
  y : ℚ
  deriving DecidableEq

/-- The source rectangle of a frame: `fr['rect']` with its two corner points. -/
structure RectSrc where
  topLeftPoint : Pt
  botRightPoint : Pt
  deriving DecidableEq

/-- An offset dictionary whose coordinates are read with
`offset.get('x', 0)` / `offset.get('y', 0)`. -/
structure OffsetSrc where
  x : Option ℚ
  y : Option ℚ
  deriving DecidableEq

/-- A tagged point of interest: all fields are read with `.get` defaults
(`tags` defaults to `''`, coordinates default to `0`). -/
structure PoiSrc where
  tags : Option String
  x : Option ℚ
  y : Option ℚ
  deriving DecidableEq

/-- A source hitbox descriptor: `flag` defaults to `0`, `width`/`height`
default to `0`, `offset` defaults to the empty dictionary. -/
structure HitboxSrc where
  flag : Option ℤ
  width : Option ℚ
  height : Option ℚ
  offset : Option OffsetSrc
  deriving DecidableEq

/-- A source frame, mirroring the fields the scripts read:
`fr['rect']` (mandatory), `fr.get('duration', 0.066)`,
`fr.get('offset', {})`, `fr.get('POIs', [])`, `fr.get('hitboxes', [])`. -/
structure FrameSrc where
  rect : RectSrc
  duration : Option ℚ
  offset : Option OffsetSrc
  POIs : List PoiSrc
  hitboxes : List HitboxSrc
  deriving DecidableEq

/-- A source animation: `data.get('wrapMode', 'once')`,
`data.get('loopStartFrame', 0)`, `data['frames']` (mandatory). -/
structure AnimSrc where
  wrapMode : Option String
  loopStartFrame : Option ℤ
  frames : List FrameSrc
  deriving DecidableEq

/-- A compiled attack box `{w, h, ox, oy}`. -/
structure AtkBox where
  w : ℤ
  h : ℤ
  ox : ℤ
  oy : ℤ
  deriving DecidableEq

/-- A compiled frame record.  Fields that the scripts only add to the
`frame_data` dictionary conditionally (`ox`, `oy`, `hx`, `hy`, `atkBox`)
are `Option`s; `none` models the key being absent. -/
structure CompiledFrame where
  sx : ℤ
  sy : ℤ
  sw : ℤ
  sh : ℤ
  dur : ℤ
  ox : Option ℤ
  oy : Option ℤ
  hx : Option ℤ
  hy : Option ℤ
  atkBox : Option AtkBox
  deriving DecidableEq

/-- A compiled animation record as returned by `convert_anim`. -/
structure CompiledAnim where
  loop : Bool
  loopStart : Option ℤ
  frames : List CompiledFrame
  deriving DecidableEq

/-- `d.get('offset', {}).get('x', 0)`: x of an optional offset dictionary. -/
def offX (o : Option OffsetSrc) : ℚ := ((o.getD { x := none, y := none }).x).getD 0

/-- `d.get('offset', {}).get('y', 0)`: y of an optional offset dictionary. -/
def offY (o : Option OffsetSrc) : ℚ := ((o.getD { x := none, y := none }).y).getD 0

/-- The attack box a hitbox descriptor is converted to; the construction is
identical in both scripts:
`{'w': int(round(hb.get('width', 0))), 'h': int(round(hb.get('height', 0))),
  'ox': int(round(hb_offset.get('x', 0))), 'oy': int(round(hb_offset.get('y', 0)))}`. -/
def roundBox (hb : HitboxSrc) : AtkBox :=
  { w := pyround (hb.width.getD 0)
    h := pyround (hb.height.getD 0)
    ox := pyround (offX hb.offset)
    oy := pyround (offY hb.offset) }

namespace BuildZero

/-- The body of the frame loop of `convert_anim` in `build_zero_sprites.py`
(lines 52-98).  The loop index `i` is unused by the zero script. -/
def convert_frame (fr : FrameSrc) : CompiledFrame :=
  let tl := fr.rect.topLeftPoint
  let br := fr.rect.botRightPoint
  let sx := pytrunc tl.x
  let sy := pytrunc tl.y
  let sw := pytrunc br.x - sx
  let sh := pytrunc br.y - sy
  let dur_sec := fr.duration.getD (66/1000)
  let dur := max 1 (pyround (dur_sec * 60))
  let ox := pyround (offX fr.offset)
  let oy := pyround (offY fr.offset)
  -- POIs: every POI with tag 'b' overwrites hx/hy
  let hxy := fr.POIs.foldl
    (fun acc poi =>
      if poi.tags.getD "" = "b" then
        some (pyround (poi.x.getD 0), pyround (poi.y.getD 0))
      else acc) none
  -- hitboxes: filter to flag 0 (default 0); if nonempty, convert the first
  let active := fr.hitboxes.filter (fun hb => hb.flag.getD 0 = 0)
  let atk : Option AtkBox := active.head?.map roundBox
  { sx := sx, sy := sy, sw := sw, sh := sh, dur := dur
    ox := if ox ≠ 0 then some ox else none
    oy := if oy ≠ 0 then some oy else none
    hx := hxy.map Prod.fst
    hy := hxy.map Prod.snd
    atkBox := atk }

/-- `convert_anim(name, data)` of `build_zero_sprites.py`.  The `name`
argument is accepted but unused by the conversion itself, as in the script. -/
def convert_anim (name : String) (data : AnimSrc) : CompiledAnim :=
  let _ := name
  let wrap := data.wrapMode.getD "once"
  let loop_start := data.loopStartFrame.getD 0
  let is_loop : Bool := wrap = "loop"
  { loop := is_loop
    loopStart := if is_loop ∧ loop_start > 0 then some loop_start else none
    frames := data.frames.map convert_frame }

end BuildZero

namespace BuildSigma

/-- The module-level `MANUAL_ATK_BOXES` dictionary of
`build_sigma_sprites.py`, as a function from animation name and frame
index to an optional replacement box. -/
def MANUAL_ATK_BOXES : String → ℕ → Option AtkBox := fun name i =>
  if name = "attack" then
    if i = 2 then some { w := 23, h := 40, ox := 30, oy := -32 }
    else if i = 3 then some { w := 23, h := 40, ox := 30, oy := -32 }
    else none
  else if name = "attack_air" then
    if i = 2 then some { w := 23, h := 40, ox := 23, oy := -42 }
    else if i = 3 then some { w := 23, h := 40, ox := 23, oy := -42 }
    else none
  else if name = "attack_dash" then
    if i = 0 then some { w := 23, h := 40, ox := 21, oy := -33 }
    else if i = 1 then some { w := 23, h := 40, ox := 21, oy := -33 }
    else none
  else if name = "wall_slide_attack" then
    if i = 3 then some { w := 48, h := 53, ox := 53, oy := 3 }
    else if i = 4 then some { w := 48, h := 53, ox := 53, oy := 3 }
    else if i = 5 then some { w := 48, h := 53, ox := 53, oy := 3 }
    else if i = 6 then some { w := 48, h := 53, ox := 53, oy := 3 }
    else none
  else none

/-- The module-level `MANUAL_DURATIONS` dictionary of
`build_sigma_sprites.py`. -/
def MANUAL_DURATIONS : String → ℕ → Option ℤ := fun name i =>
  if name = "attack" then
    if i = 0 then some 2
    else if i = 1 then some 2
    else if i = 2 then some 3
    else if i = 3 then some 10
    else none
  else if name = "attack_air" then
    if i = 2 then some 3
    else if i = 3 then some 10
    else none
  else if name = "attack_dash" then
    if i = 0 then some 3
    else if i = 1 then some 10
    else none
  else none

/-- The body of the frame loop of `convert_anim` in `build_sigma_sprites.py`
(lines 99-156).  The override dictionaries are module-level globals in the
script and are passed explicitly here; instantiating `durTable := MANUAL_DURATIONS`
and `atkTable := MANUAL_ATK_BOXES` gives the script's behaviour. -/
def convert_frame (durTable : String → ℕ → Option ℤ)
    (atkTable : String → ℕ → Option AtkBox)
    (name : String) (i : ℕ) (fr : FrameSrc) : CompiledFrame :=
  let tl := fr.rect.topLeftPoint
  let br := fr.rect.botRightPoint
  let sx := pytrunc tl.x
  let sy := pytrunc tl.y
  let sw := pytrunc br.x - sx
  let sh := pytrunc br.y - sy
  let dur_sec := fr.duration.getD (66/1000)
  let dur0 := max 1 (pyround (dur_sec * 60))
  -- manual duration overrides
  let dur := (durTable name i).getD dur0
  let ox := pyround (offX fr.offset)
  let oy := pyround (offY fr.offset)
  -- POIs: every POI with the empty tag overwrites hx/hy; the script's
  -- `elif tag == 'h' and 'hx' not in frame_data: pass` branch does nothing
  let hxy := fr.POIs.foldl
    (fun acc poi =>
      if poi.tags.getD "" = "" then
        some (pyround (poi.x.getD 0), pyround (poi.y.getD 0))
      else acc) none
  -- hitboxes: filter to flag 0 (default 0); if nonempty, convert the first
  let active := fr.hitboxes.filter (fun hb => hb.flag.getD 0 = 0)
  let atk0 : Option AtkBox := active.head?.map roundBox
  -- manual atkBox overrides
  let atk : Option AtkBox :=
    match atkTable name i with
    | some b => some b
    | none => atk0
  { sx := sx, sy := sy, sw := sw, sh := sh, dur := dur
    ox := if ox ≠ 0 then some ox else none
    oy := if oy ≠ 0 then some oy else none
    hx := hxy.map Prod.fst
    hy := hxy.map Prod.snd
    atkBox := atk }

/-- `convert_anim(name, data)` of `build_sigma_sprites.py`, with the two
module-level override dictionaries passed explicitly. -/
def convert_anim (durTable : String → ℕ → Option ℤ)
    (atkTable : String → ℕ → Option AtkBox)
    (name : String) (data : AnimSrc) : CompiledAnim :=
  let wrap := data.wrapMode.getD "once"
  let loop_start := data.loopStartFrame.getD 0
  let is_loop : Bool := wrap = "loop"
  { loop := is_loop
    loopStart := if is_loop ∧ loop_start > 0 then some loop_start else none
    frames := data.frames.enum.map (fun p => convert_frame durTable atkTable name p.1 p.2) }

end BuildSigma

/-- The `ZERO_SHOOT_ANIM_MAP` constant emitted into `zero-sprite-data.js`
by `build_zero_sprites.py` (lines 137-144). -/
def ZERO_SHOOT_ANIM_MAP : String → Option String := fun s =>
  if s = "idle" then some "shoot"
  else if s = "run" then some "run_shoot"
  else if s = "jump" then some "jump_shoot"
  else if s = "fall" then some "fall_shoot"
  else if s = "dash" then some "dash_shoot"
  else if s = "wall_slide" then some "wall_slide_shoot"
  else none

/-- The `getZeroAnim(state, shooting)` function emitted into
`zero-sprite-data.js` (lines 176-184), over an arbitrary compiled
animation table (the emitted `ZERO_ANIMATIONS` object, modelled as a
partial map).  A missing JS property is `none`; all animation objects are
truthy, as are all overlay names in the map (non-empty strings). -/
def getZeroAnim (animations : String → Option CompiledAnim)
    (state : String) (shooting : Bool) : Option CompiledAnim :=
  match (if shooting then (ZERO_SHOOT_ANIM_MAP state).bind animations else none) with
  | some a => some a
  | none =>
    match animations state with
    | some a => some a
    | none => animations "idle"

/-- The `getSigmaAnim(state)` function emitted into `sigma-sprite-data.js`
by `build_sigma_sprites.py` (lines 222-224):
`return SIGMA_ANIMATIONS[state] || SIGMA_ANIMATIONS.idle;`. -/
def getSigmaAnim (animations : String → Option CompiledAnim)
    (state : String) : Option CompiledAnim :=
  match animations state with
  | some a => some a
  | none => animations "idle"

/-- The last element of a list satisfying `p`, if any.  The POI loops of both
scripts assign `hx`/`hy` anew on every matching POI, so the surviving value
comes from the last match. -/
def lastMatch {α : Type} (p : α → Prop) [DecidablePred p] : List α → Option α
  | [] => none
  | a :: l =>
      match lastMatch p l with
      | some b => some b
      | none => if p a then some a else none

/-- A frame with only the mandatory rectangle: corners (0,0) and (10,10),
every optional field absent. -/
def frame10 : FrameSrc :=
  { rect := { topLeftPoint := { x := 0, y := 0 }, botRightPoint := { x := 10, y := 10 } }
    duration := none, offset := none, POIs := [], hitboxes := [] }

/-- A frame whose source duration is 0.0166 seconds. -/
def fr0166 : FrameSrc := { frame10 with duration := some (166/10000) }

/-- A frame whose source duration is 0.499 seconds (the sigma attack hold). -/
def fr0499 : FrameSrc := { frame10 with duration := some (499/1000) }

/-- A frame with two POIs tagged `b`, at (1,2) and (5,7). -/
def frTwoPois : FrameSrc :=
  { frame10 with POIs :=
      [{ tags := some "b", x := some 1, y := some 2 },
       { tags := some "b", x := some 5, y := some 7 }] }

/-- A frame whose top-left x coordinate is the negative non-integer -3/2. -/
def frNeg : FrameSrc :=
  { frame10 with rect :=
      { topLeftPoint := { x := -(3/2), y := 0 }, botRightPoint := { x := 10, y := 10 } } }

/-- A frame with a flag-1 hitbox followed by a flag-0 hitbox. -/
def frHitboxes : FrameSrc :=
  { frame10 with hitboxes :=
      [{ flag := some 1, width := some 99, height := some 99, offset := none },
       { flag := some 0, width := some 12, height := some 34,
         offset := some { x := some 5, y := some 6 } }] }

/-- A hitbox descriptor that omits its flag field entirely. -/
def hbNF : HitboxSrc := { flag := none, width := some 12, height := some 34, offset := none }

/-- A frame with a single hitbox that omits its flag field entirely. -/
def frNoFlag : FrameSrc := { frame10 with hitboxes := [hbNF] }

/-- A one-frame animation source with no wrap mode or loop-start field. -/
def animOne : AnimSrc := { wrapMode := none, loopStartFrame := none, frames := [frame10] }

/-- A looping one-frame animation whose declared loop start, 5, is out of range. -/
def animLoop5 : AnimSrc :=
  { wrapMode := some "loop", loopStartFrame := some 5, frames := [frame10] }

/-- A looping two-frame animation with loop start 1 (in range). -/
def animLoop1 : AnimSrc :=
  { wrapMode := some "loop", loopStartFrame := some 1, frames := [frame10, frame10] }

/-- A compiled animation used as a lookup-table entry in tests. -/
def animA : CompiledAnim := { loop := true, loopStart := none, frames := [] }

/-- A second, distinct compiled animation used as a lookup-table entry. -/
def animB : CompiledAnim := { loop := false, loopStart := none, frames := [] }

/-- A sample animation table defining only `run_shoot` and `idle`. -/
def tblW : String → Option CompiledAnim := fun s =>
  if s = "run_shoot" then some animA else if s = "idle" then some animB else none

theorem foldl_set_eq_lastMatch {α β : Type} (p : α → Prop) [DecidablePred p] (g : α → β) :
    ∀ (l : List α) (acc : Option β),
      l.foldl (fun a x => if p x then some (g x) else a) acc
        = match lastMatch p l with
          | some x => some (g x)
          | none => acc := by
  intro l
  induction l with
  | nil => intro acc; rfl
  | cons a l ih =>
      intro acc
      rw [List.foldl_cons, ih]
      cases h : lastMatch p l with
      | some b => simp [lastMatch, h]
      | none => by_cases hp : p a <;> simp [lastMatch, h, hp]

theorem head_filter_find? {α : Type} (p : α → Bool) (l : List α) :
    (l.filter p).head? = l.find? p := by
  induction l with
  | nil => rfl
  | cons a l ih => by_cases h : p a <;> simp [List.filter_cons, List.find?_cons, h, ih]

theorem manual_durations_pos (name : String) (i : ℕ) (d : ℤ)
    (h : BuildSigma.MANUAL_DURATIONS name i = some d) : 1 ≤ d := by
  unfold BuildSigma.MANUAL_DURATIONS at h
  split_ifs at h <;> simp_all <;> omega

theorem pytrunc_eq_floor {q : ℚ} (h : 0 ≤ q) : pytrunc q = ⌊q⌋ := by
  simp [pytrunc, h]

/-- C1 (amended): for every FrameSource and character primary tag (the
empty-string tag for Sigma, the tag `b` for Zero), the compiled anchor
`(hx, hy)` equals the rounded coordinates of the LAST POI in the list whose
tag equals the primary tag (each later match overwrites the earlier ones);
POIs with any other tag (including the secondary `h` tag) never affect the
output, and when no POI matches, the `hx` and `hy` fields are absent from
the compiled frame.  (The original claim said the FIRST matching POI wins;
the loops in both scripts reassign `hx`/`hy` on every match, so the last
one survives.) -/
theorem poiAnchor_lastMatch (dT : String → ℕ → Option ℤ)
    (aT : String → ℕ → Option AtkBox) (name : String) (i : ℕ) (fr : FrameSrc) :
    (BuildZero.convert_frame fr).hx
        = (lastMatch (fun poi => poi.tags.getD "" = "b") fr.POIs).map
            (fun poi => pyround (poi.x.getD 0))
    ∧ (BuildZero.convert_frame fr).hy
        = (lastMatch (fun poi => poi.tags.getD "" = "b") fr.POIs).map
            (fun poi => pyround (poi.y.getD 0))
    ∧ (BuildSigma.convert_frame dT aT name i fr).hx
        = (lastMatch (fun poi => poi.tags.getD "" = "") fr.POIs).map
            (fun poi => pyround (poi.x.getD 0))
    ∧ (BuildSigma.convert_frame dT aT name i fr).hy
        = (lastMatch (fun poi => poi.tags.getD "" = "") fr.POIs).map
            (fun poi => pyround (poi.y.getD 0)) := by
  refine ⟨?_, ?_, ?_, ?_⟩
  · show (fr.POIs.foldl
        (fun acc poi =>
          if poi.tags.getD "" = "b" then
            some (pyround (poi.x.getD 0), pyround (poi.y.getD 0))
          else acc) none).map Prod.fst = _
    rw [foldl_set_eq_lastMatch (fun poi => poi.tags.getD "" = "b")
        (fun poi => (pyround (poi.x.getD 0), pyround (poi.y.getD 0))) fr.POIs none]
    cases lastMatch (fun poi => poi.tags.getD "" = "b") fr.POIs <;> simp
  · show (fr.POIs.foldl
        (fun acc poi =>
          if poi.tags.getD "" = "b" then
            some (pyround (poi.x.getD 0), pyround (poi.y.getD 0))
          else acc) none).map Prod.snd = _
    rw [foldl_set_eq_lastMatch (fun poi => poi.tags.getD "" = "b")
        (fun poi => (pyround (poi.x.getD 0), pyround (poi.y.getD 0))) fr.POIs none]
    cases lastMatch (fun poi => poi.tags.getD "" = "b") fr.POIs <;> simp
  · show (fr.POIs.foldl
        (fun acc poi =>
          if poi.tags.getD "" = "" then
            some (pyround (poi.x.getD 0), pyround (poi.y.getD 0))
          else acc) none).map Prod.fst = _
    rw [foldl_set_eq_lastMatch (fun poi => poi.tags.getD "" = "")
        (fun poi => (pyround (poi.x.getD 0), pyround (poi.y.getD 0))) fr.POIs none]
    cases lastMatch (fun poi => poi.tags.getD "" = "") fr.POIs <;> simp
  · show (fr.POIs.foldl
        (fun acc poi =>
          if poi.tags.getD "" = "" then
            some (pyround (poi.x.getD 0), pyround (poi.y.getD 0))
          else acc) none).map Prod.snd = _
    rw [foldl_set_eq_lastMatch (fun poi => poi.tags.getD "" = "")
        (fun poi => (pyround (poi.x.getD 0), pyround (poi.y.getD 0))) fr.POIs none]
    cases lastMatch (fun poi => poi.tags.getD "" = "") fr.POIs <;> simp

/-- C3: for every FrameSource with no applicable duration override, the
compiled duration equals round(durationSeconds * 60) clamped below at 1
(with Python's round), where durationSeconds is 0.066 = 66/1000 when the
source omits the duration field.  The zero converter has no overrides at
all, so its equation is unconditional. -/
theorem duration_formula (dT : String → ℕ → Option ℤ)
    (aT : String → ℕ → Option AtkBox) (name : String) (i : ℕ) (fr : FrameSrc)
    (hnov : dT name i = none) :
    (BuildSigma.convert_frame dT aT name i fr).dur
        = max 1 (pyround (fr.duration.getD (66/1000) * 60))
    ∧ (BuildZero.convert_frame fr).dur
        = max 1 (pyround (fr.duration.getD (66/1000) * 60)) := by
  constructor
  · show (dT name i).getD _ = _
    rw [hnov]
    rfl
  · rfl

/-- C4 (amended): for every FrameSource, the compiled rectangle satisfies
x = trunc(topLeft.x), y = trunc(topLeft.y),
width = trunc(botRight.x) - trunc(topLeft.x),
height = trunc(botRight.y) - trunc(topLeft.y), where trunc is Python
`int()`: truncation toward zero, applied to each corner coordinate
independently before subtraction.  Truncation toward zero coincides with
floor for nonnegative coordinates (final conjunct), but not for negative
ones, so the original claim's `floor` is wrong in general. -/
theorem rect_trunc (dT : String → ℕ → Option ℤ)
    (aT : String → ℕ → Option AtkBox) (name : String) (i : ℕ) (fr : FrameSrc) :
    ((BuildZero.convert_frame fr).sx = pytrunc fr.rect.topLeftPoint.x
      ∧ (BuildZero.convert_frame fr).sy = pytrunc fr.rect.topLeftPoint.y
      ∧ (BuildZero.convert_frame fr).sw
          = pytrunc fr.rect.botRightPoint.x - pytrunc fr.rect.topLeftPoint.x
      ∧ (BuildZero.convert_frame fr).sh
          = pytrunc fr.rect.botRightPoint.y - pytrunc fr.rect.topLeftPoint.y)
    ∧ ((BuildSigma.convert_frame dT aT name i fr).sx = pytrunc fr.rect.topLeftPoint.x
      ∧ (BuildSigma.convert_frame dT aT name i fr).sy = pytrunc fr.rect.topLeftPoint.y
      ∧ (BuildSigma.convert_frame dT aT name i fr).sw
          = pytrunc fr.rect.botRightPoint.x - pytrunc fr.rect.topLeftPoint.x
      ∧ (BuildSigma.convert_frame dT aT name i fr).sh
          = pytrunc fr.rect.botRightPoint.y - pytrunc fr.rect.topLeftPoint.y)
    ∧ (∀ q : ℚ, 0 ≤ q → pytrunc q = ⌊q⌋) :=
  ⟨⟨rfl, rfl, rfl, rfl⟩, ⟨rfl, rfl, rfl, rfl⟩, fun _ hq => pytrunc_eq_floor hq⟩

/-- C5: for every (animation name, frame index) pair present in the override
table, a duration override replaces the computed duration exactly, and an
attack-box override replaces all four attack-box fields together with the
override's values, regardless of what the hitbox extractor derived
(including frames where it found no box at all). -/
theorem override_total_replacement (dT : String → ℕ → Option ℤ)
    (aT : String → ℕ → Option AtkBox) (name : String) (i : ℕ) (fr : FrameSrc) :
    (∀ d, dT name i = some d →
        (BuildSigma.convert_frame dT aT name i fr).dur = d)
    ∧ (∀ b, aT name i = some b →
        (BuildSigma.convert_frame dT aT name i fr).atkBox = some b) := by
  constructor
  · intro d h
    show (dT name i).getD _ = _
    rw [h]
    rfl
  · intro b h
    unfold BuildSigma.convert_frame
    rw [h]

/-- C6: for every state name and firing flag, the emitted lookup returns:
the overlay animation when firing is true, the state has an entry in the
shoot-overlay map, and the mapped animation exists in the table; otherwise
the table entry named by the state when it exists; otherwise the table's
idle entry.  In particular `getZeroAnim(run, firing=true)` returns the
`run_shoot` animation whenever the table defines it, and resolving a state
with no table entry falls back to idle.  Sigma's lookup has no firing
parameter at all (firing is a distinct state), and obeys the same
state-then-idle cascade. -/
theorem lookup_resolve (tbl : String → Option CompiledAnim) (state : String) :
    (∀ ov a, ZERO_SHOOT_ANIM_MAP state = some ov → tbl ov = some a →
        getZeroAnim tbl state true = some a)
    ∧ (∀ firing : Bool, (firing = false ∨ (ZERO_SHOOT_ANIM_MAP state).bind tbl = none) →
        (∀ a, tbl state = some a → getZeroAnim tbl state firing = some a)
        ∧ (tbl state = none → getZeroAnim tbl state firing = tbl "idle"))
    ∧ (∀ a, tbl "run_shoot" = some a → getZeroAnim tbl "run" true = some a)
    ∧ (∀ a, tbl state = some a → getSigmaAnim tbl state = some a)
    ∧ (tbl state = none → getSigmaAnim tbl state = tbl "idle") := by
  refine ⟨?_, ?_, ?_, ?_, ?_⟩
  · intro ov a h1 h2
    simp [getZeroAnim, h1, h2]
  · intro firing hor
    constructor
    · intro a ha
      cases firing with
      | false => simp [getZeroAnim, ha]
      | true =>
          rcases hor with hf | hb
          · exact absurd hf (by simp)
          · simp [getZeroAnim, hb, ha]
    · intro hnone
      cases firing with
      | false => simp [getZeroAnim, hnone]
      | true =>
          rcases hor with hf | hb
          · exact absurd hf (by simp)
          · simp [getZeroAnim, hb, hnone]
  · intro a h2
    have h1 : ZERO_SHOOT_ANIM_MAP "run" = some "run_shoot" := by decide
    simp [getZeroAnim, h1, h2]
  · intro a ha
    simp [getSigmaAnim, ha]
  · intro hnone
    simp [getSigmaAnim, hnone]

/-- C7: for every FrameSource, the compiled attack box (when no override
applies; the zero converter has no overrides) equals the rounded width,
height and offset of the first hitbox entry in source order whose flag
(defaulting to 0 when absent) equals 0; entries with nonzero flag never
contribute, and when no such entry exists the atkBox field is absent. -/
theorem hitbox_first_flag0 (dT : String → ℕ → Option ℤ)
    (aT : String → ℕ → Option AtkBox) (name : String) (i : ℕ) (fr : FrameSrc)
    (hnov : aT name i = none) :
    (BuildZero.convert_frame fr).atkBox
        = (fr.hitboxes.find? (fun hb => hb.flag.getD 0 = 0)).map roundBox
    ∧ (BuildSigma.convert_frame dT aT name i fr).atkBox
        = (fr.hitboxes.find? (fun hb => hb.flag.getD 0 = 0)).map roundBox := by
  constructor
  · show (fr.hitboxes.filter (fun hb => hb.flag.getD 0 = 0)).head?.map roundBox = _
    rw [head_filter_find? (fun hb => decide (hb.flag.getD 0 = 0)) fr.hitboxes]
  · unfold BuildSigma.convert_frame
    rw [hnov]
    show (fr.hitboxes.filter (fun hb => hb.flag.getD 0 = 0)).head?.map roundBox = _
    rw [head_filter_find? (fun hb => decide (hb.flag.getD 0 = 0)) fr.hitboxes]

/-- C8: for every compiled animation produced by the pipeline with its
actual override tables (including frames whose duration was replaced by a
`MANUAL_DURATIONS` entry, all of which are ≥ 1), every compiled frame has
duration ≥ 1. -/
theorem compiled_duration_ge_one (name : String) (data : AnimSrc) :
    (∀ f ∈ (BuildSigma.convert_anim BuildSigma.MANUAL_DURATIONS
        BuildSigma.MANUAL_ATK_BOXES name data).frames, 1 ≤ f.dur)
    ∧ (∀ f ∈ (BuildZero.convert_anim name data).frames, 1 ≤ f.dur) := by
  constructor
  · intro f hf
    have hm : f ∈ data.frames.enum.map (fun p =>
        BuildSigma.convert_frame BuildSigma.MANUAL_DURATIONS
          BuildSigma.MANUAL_ATK_BOXES name p.1 p.2) := hf
    rw [List.mem_map] at hm
    obtain ⟨p, _, rfl⟩ := hm
    show 1 ≤ (BuildSigma.MANUAL_DURATIONS name p.1).getD
        (max 1 (pyround (p.2.duration.getD (66/1000) * 60)))
    cases h : BuildSigma.MANUAL_DURATIONS name p.1 with
    | none => simp
    | some d =>
        simpa using manual_durations_pos name p.1 d h
  · intro f hf
    have hm : f ∈ data.frames.map BuildZero.convert_frame := hf
    rw [List.mem_map] at hm
    obtain ⟨fr, _, rfl⟩ := hm
    show 1 ≤ max 1 (pyround (fr.duration.getD (66/1000) * 60))
    exact le_max_left _ _

/-- C9 (amended): for every CompiledAnimation, when the loopStart field is
present it equals the source's loopStartFrame value and is strictly
positive; it is a valid index into the frame sequence whenever that source
value is less than the number of source frames.  The converters copy the
value without any bounds validation, so a source whose loopStartFrame is
out of range produces an out-of-range loopStart. -/
theorem loopStart_source_bound (name : String) (data : AnimSrc) :
    (∀ ls, (BuildZero.convert_anim name data).loopStart = some ls →
        0 < ls ∧ ls = data.loopStartFrame.getD 0
        ∧ (data.loopStartFrame.getD 0 < (data.frames.length : ℤ) →
            0 ≤ ls ∧ ls < ((BuildZero.convert_anim name data).frames.length : ℤ)))
    ∧ (∀ dT aT ls,
        (BuildSigma.convert_anim dT aT name data).loopStart = some ls →
        0 < ls ∧ ls = data.loopStartFrame.getD 0
        ∧ (data.loopStartFrame.getD 0 < (data.frames.length : ℤ) →
            0 ≤ ls ∧ ls < ((BuildSigma.convert_anim dT aT name data).frames.length : ℤ))) := by
  constructor
  · intro ls h
    have h' : (if (data.wrapMode.getD "once" = "loop" : Bool) = true
          ∧ data.loopStartFrame.getD 0 > 0
        then some (data.loopStartFrame.getD 0) else none) = some ls := h
    have hlen : (BuildZero.convert_anim name data).frames.length
        = data.frames.length := List.length_map _ _
    split_ifs at h' with hc
    · obtain ⟨rfl⟩ := Option.some.inj h'
      exact ⟨hc.2, rfl, fun hb => ⟨le_of_lt hc.2, by rw [hlen]; exact hb⟩⟩
  · intro dT aT ls h
    have h' : (if (data.wrapMode.getD "once" = "loop" : Bool) = true
          ∧ data.loopStartFrame.getD 0 > 0
        then some (data.loopStartFrame.getD 0) else none) = some ls := h
    have hlen : (BuildSigma.convert_anim dT aT name data).frames.length
        = data.frames.length := by
      show (data.frames.enum.map _).length = _
      rw [List.length_map, List.enum_length]
    split_ifs at h' with hc
    · obtain ⟨rfl⟩ := Option.some.inj h'
      exact ⟨hc.2, rfl, fun hb => ⟨le_of_lt hc.2, by rw [hlen]; exact hb⟩⟩

/-- C10: for every FrameSource, a hitbox descriptor that omits the flag
field entirely is treated as flag 0 (the damage class) and is therefore
eligible to be selected as the compiled attack box; here such a descriptor
heading the hitbox list becomes the attack box in both converters. -/
theorem hitbox_flag_default_zero (dT : String → ℕ → Option ℤ)
    (aT : String → ℕ → Option AtkBox) (name : String) (i : ℕ) (fr : FrameSrc)
    (hb : HitboxSrc) (rest : List HitboxSrc)
    (h1 : fr.hitboxes = hb :: rest) (h2 : hb.flag = none) (hnov : aT name i = none) :
    (BuildZero.convert_frame fr).atkBox = some (roundBox hb)
    ∧ (BuildSigma.convert_frame dT aT name i fr).atkBox = some (roundBox hb) := by
  have hp : (decide (hb.flag.getD 0 = 0)) = true := by rw [h2]; decide
  constructor
  · show (fr.hitboxes.filter (fun hb => hb.flag.getD 0 = 0)).head?.map roundBox = _
    rw [h1]
    simp [List.filter_cons, hp]
  · unfold BuildSigma.convert_frame
    rw [hnov]
    show (fr.hitboxes.filter (fun hb => hb.flag.getD 0 = 0)).head?.map roundBox = _
    rw [h1]
    simp [List.filter_cons, hp]

section

attribute [local semireducible] Rat.mul Rat.add Rat.sub Rat.inv

/-- C1 counterexample: on a frame with two POIs tagged `b`, at x = 1 and
x = 5, the compiled `hx` is 5 (the rounded x of the LAST matching POI),
while the first matching POI would give 1, refuting the claim that the
first match wins. -/
theorem poiAnchor_firstMatch_cex :
    (BuildZero.convert_frame frTwoPois).hx = some 5
    ∧ (frTwoPois.POIs.find? (fun poi => poi.tags.getD "" = "b")).map
        (fun poi => pyround (poi.x.getD 0)) = some 1
    ∧ (BuildZero.convert_frame frTwoPois).hx
        ≠ (frTwoPois.POIs.find? (fun poi => poi.tags.getD "" = "b")).map
            (fun poi => pyround (poi.x.getD 0)) := by decide

/-- C2: the conversion does NOT fail fast on an override entry whose frame
index has no corresponding source frame.  `MANUAL_DURATIONS` for `attack`
has entries at indices 1, 2 and 3, but converting a one-frame `attack`
animation succeeds normally, silently ignoring them: the output has one
frame whose duration 2 comes from the only in-range entry (index 0).  The
conversion function is total and has no error path at all, so the claimed
fail-fast behaviour cannot occur. -/
theorem overrideIndex_silentlyIgnored :
    BuildSigma.MANUAL_DURATIONS "attack" 3 = some 10
    ∧ animOne.frames.length = 1
    ∧ (BuildSigma.convert_anim BuildSigma.MANUAL_DURATIONS BuildSigma.MANUAL_ATK_BOXES
        "attack" animOne).frames.map (fun f => f.dur) = [2] := by decide

/-- C3 witness: a frame with source duration 0.0166 s and no applicable
override compiles to duration 1 in both converters. -/
theorem duration_formula_witness :
    BuildSigma.MANUAL_DURATIONS "idle" 0 = none
    ∧ (BuildSigma.convert_frame BuildSigma.MANUAL_DURATIONS BuildSigma.MANUAL_ATK_BOXES
        "idle" 0 fr0166).dur = 1
    ∧ (BuildZero.convert_frame fr0166).dur = 1 :=
  ⟨by decide,
   (duration_formula BuildSigma.MANUAL_DURATIONS BuildSigma.MANUAL_ATK_BOXES
      "idle" 0 fr0166 (by decide)).1.trans (by decide),
   (duration_formula BuildSigma.MANUAL_DURATIONS BuildSigma.MANUAL_ATK_BOXES
      "idle" 0 fr0166 (by decide)).2.trans (by decide)⟩

/-- C4 counterexample: on a frame whose top-left x is -3/2, the compiled x
is -1 (truncation toward zero) while floor gives -2, refuting the claim
that the compiled rectangle uses floor. -/
theorem rect_floor_cex :
    (BuildZero.convert_frame frNeg).sx = -1
    ∧ ⌊frNeg.rect.topLeftPoint.x⌋ = -2
    ∧ (BuildZero.convert_frame frNeg).sx ≠ ⌊frNeg.rect.topLeftPoint.x⌋ := by decide

/-- C4 witness: concrete instance of the truncation rule, plus the
coincidence of truncation and floor at the nonnegative coordinate 3/2. -/
theorem rect_trunc_witness :
    (BuildZero.convert_frame frame10).sx = pytrunc frame10.rect.topLeftPoint.x
    ∧ pytrunc ((3:ℚ)/2) = ⌊(3:ℚ)/2⌋ :=
  ⟨(rect_trunc (fun _ _ => none) (fun _ _ => none) "idle" 0 frame10).1.1,
   (rect_trunc (fun _ _ => none) (fun _ _ => none) "idle" 0 frame10).2.2
      ((3:ℚ)/2) (by decide)⟩

/-- C5 witness: for `attack` frame 3 the duration override 10 replaces the
computed duration (which would be 30 for a 0.499 s frame), and the
attack-box override is installed although the frame has no hitbox at all. -/
theorem override_total_replacement_witness :
    BuildSigma.MANUAL_DURATIONS "attack" 3 = some 10
    ∧ (BuildSigma.convert_frame BuildSigma.MANUAL_DURATIONS BuildSigma.MANUAL_ATK_BOXES
        "attack" 3 fr0499).dur = 10
    ∧ BuildSigma.MANUAL_ATK_BOXES "attack" 3 = some { w := 23, h := 40, ox := 30, oy := -32 }
    ∧ fr0499.hitboxes = []
    ∧ (BuildSigma.convert_frame BuildSigma.MANUAL_DURATIONS BuildSigma.MANUAL_ATK_BOXES
        "attack" 3 fr0499).atkBox = some { w := 23, h := 40, ox := 30, oy := -32 } :=
  ⟨by decide,
   (override_total_replacement BuildSigma.MANUAL_DURATIONS BuildSigma.MANUAL_ATK_BOXES
      "attack" 3 fr0499).1 10 (by decide),
   by decide,
   by decide,
   (override_total_replacement BuildSigma.MANUAL_DURATIONS BuildSigma.MANUAL_ATK_BOXES
      "attack" 3 fr0499).2 { w := 23, h := 40, ox := 30, oy := -32 } (by decide)⟩

/-- C6 witness: on a table defining only `run_shoot` and `idle`, resolving
`run` while firing returns the `run_shoot` animation, and resolving a
nonexistent state returns the idle animation for both characters. -/
theorem lookup_resolve_witness :
    getZeroAnim tblW "run" true = some animA
    ∧ getZeroAnim tblW "teleport" false = some animB
    ∧ getSigmaAnim tblW "teleport" = some animB :=
  ⟨(lookup_resolve tblW "run").2.2.1 animA (by decide),
   (((lookup_resolve tblW "teleport").2.1 false (Or.inl rfl)).2 (by decide)).trans (by decide),
   ((lookup_resolve tblW "teleport").2.2.2.2 (by decide)).trans (by decide)⟩

/-- C7 witness: on a frame with a flag-1 hitbox followed by a flag-0
hitbox, the compiled attack box is the rounded flag-0 one (width 12,
height 34, offset (5,6)); the flag-1 entry is ignored. -/
theorem hitbox_first_flag0_witness :
    BuildSigma.MANUAL_ATK_BOXES "idle" 0 = none
    ∧ (BuildZero.convert_frame frHitboxes).atkBox
        = some { w := 12, h := 34, ox := 5, oy := 6 }
    ∧ (BuildSigma.convert_frame BuildSigma.MANUAL_DURATIONS BuildSigma.MANUAL_ATK_BOXES
        "idle" 0 frHitboxes).atkBox = some { w := 12, h := 34, ox := 5, oy := 6 } :=
  ⟨by decide,
   ((hitbox_first_flag0 BuildSigma.MANUAL_DURATIONS BuildSigma.MANUAL_ATK_BOXES
      "idle" 0 frHitboxes (by decide)).1).trans (by decide),
   ((hitbox_first_flag0 BuildSigma.MANUAL_DURATIONS BuildSigma.MANUAL_ATK_BOXES
      "idle" 0 frHitboxes (by decide)).2).trans (by decide)⟩

/-- C8 witness: concrete frames of both pipelines have duration ≥ 1; the
sigma frame is `attack` frame 0, whose duration comes from an override. -/
theorem compiled_duration_ge_one_witness :
    1 ≤ (BuildSigma.convert_frame BuildSigma.MANUAL_DURATIONS BuildSigma.MANUAL_ATK_BOXES
        "attack" 0 frame10).dur
    ∧ 1 ≤ (BuildZero.convert_frame frame10).dur :=
  ⟨(compiled_duration_ge_one "attack" animOne).1 _ (by decide),
   (compiled_duration_ge_one "idle" animOne).2 _ (by decide)⟩

/-- C9 counterexample: a looping one-frame animation declaring
loopStartFrame 5 compiles to loopStart 5, which is not a valid index into
its single-frame sequence, refuting the claimed invariant. -/
theorem loopStart_invalid_cex :
    (BuildZero.convert_anim "idle" animLoop5).loopStart = some 5
    ∧ (BuildZero.convert_anim "idle" animLoop5).frames.length = 1
    ∧ ¬((5:ℤ) < ((BuildZero.convert_anim "idle" animLoop5).frames.length : ℤ)) := by decide

/-- C9 witness: a looping two-frame animation with loopStartFrame 1 has
loopStart 1, a valid index. -/
theorem loopStart_source_bound_witness :
    (BuildZero.convert_anim "idle" animLoop1).loopStart = some 1
    ∧ (0:ℤ) < 1
    ∧ ((0:ℤ) ≤ 1 ∧ (1:ℤ) < ((BuildZero.convert_anim "idle" animLoop1).frames.length : ℤ)) :=
  ⟨by decide,
   ((loopStart_source_bound "idle" animLoop1).1 1 (by decide)).1,
   ((loopStart_source_bound "idle" animLoop1).1 1 (by decide)).2.2 (by decide)⟩

/-- C10 witness: a frame whose only hitbox omits the flag field compiles
to that hitbox's rounded attack box in both converters. -/
theorem hitbox_flag_default_zero_witness :
    hbNF.flag = none
    ∧ (BuildZero.convert_frame frNoFlag).atkBox = some { w := 12, h := 34, ox := 0, oy := 0 }
    ∧ (BuildSigma.convert_frame BuildSigma.MANUAL_DURATIONS BuildSigma.MANUAL_ATK_BOXES
        "idle" 0 frNoFlag).atkBox = some { w := 12, h := 34, ox := 0, oy := 0 } :=
  ⟨by decide,
   ((hitbox_flag_default_zero BuildSigma.MANUAL_DURATIONS BuildSigma.MANUAL_ATK_BOXES
      "idle" 0 frNoFlag hbNF [] (by decide) (by decide) (by decide)).1).trans (by decide),
   ((hitbox_flag_default_zero BuildSigma.MANUAL_DURATIONS BuildSigma.MANUAL_ATK_BOXES
      "idle" 0 frNoFlag hbNF [] (by decide) (by decide) (by decide)).2).trans (by decide)⟩

end
